import Mathlib

/-!
Shallow embedding of the transaction layer of the isar database engine
(`packages/isar_core/src/native/native_txn.rs`) and of the JSON import entry
point (`packages/isar_core/src/core/instance.rs`), with proofs of the
specification's claims about them.

Modelling conventions:
* The MDBX substrate (`Txn`, `Db`, raw cursors) is external to the verified
  code; its fallible calls are passed in as explicit `Except`-valued oracles.
* Interior mutability (`Cell`, `RefCell`) becomes explicit state passing:
  every operation that can mutate the transaction returns the updated
  `NativeTxn` alongside its result.
* `Vec<u8>` is modelled by `List Nat` (values only; capacity is not
  observable).
* The Rust cursor pool is a `Vec` used as a stack (`pop` removes the last
  element, `push` appends).  We represent the stack with the Lean list head
  as the Rust vector's last element, so `pop` is head removal and `push` is
  cons.
* Externally visible actions of `commit`/`abort` (substrate commit, substrate
  abort, watcher notification) are recorded in an `Effect` trace, in the
  order the Rust code performs them.
-/

namespace Isar

/-- Error kinds of `IsarError` (core/error.rs); the ones the modelled code
distinguishes, with a catch-all for substrate failures. -/
inductive IsarError where
  | TransactionClosed
  | JsonError
  | DbFull
  | UniqueViolation
  | other (code : Nat)
deriving DecidableEq, Repr

/-- Opaque MDBX transaction handle (mdbx/txn.rs is substrate, out of scope). -/
structure Txn where
  handle : Nat
deriving DecidableEq, Repr

/-- Opaque MDBX sub-database handle (mdbx/db.rs). -/
structure Db where
  dbi : Nat
deriving DecidableEq, Repr

/-- An unbound MDBX cursor (mdbx/cursor.rs); opaque token. -/
structure UnboundCursor where
  tok : Nat
deriving DecidableEq, Repr

/-- Rust `UnboundCursor::new()`: a freshly allocated unbound cursor. -/
def UnboundCursor.new : UnboundCursor := ⟨0⟩

/-- A cursor bound to a sub-database within a transaction (mdbx/cursor.rs). -/
structure Cursor where
  tok : Nat
  db : Db
deriving DecidableEq, Repr

/-- Rust `Cursor::unbind`: detach the cursor from its sub-database. -/
def Cursor.unbind (c : Cursor) : UnboundCursor := ⟨c.tok⟩

/-- A `(collection, optional id)` change event (core/watcher.rs). -/
structure ChangeEvent where
  collection : Nat
  id : Option Int
deriving DecidableEq, Repr

/-- Rust `ChangeSet` (core/watcher.rs): per-transaction accumulator of change
events. -/
structure ChangeSet where
  events : List ChangeEvent
deriving DecidableEq, Repr

/-- Rust `ChangeSet::new()`. -/
def ChangeSet.new : ChangeSet := ⟨[]⟩

/-- Rust `NativeTxn` (native/native_txn.rs).  `Cell`/`RefCell` fields become plain
fields mutated by explicit state passing. -/
structure NativeTxn where
  instance_id : Nat
  txn : Txn
  active : Bool
  buffer : Option (List Nat)
  change_set : ChangeSet
  unbound_cursors : List UnboundCursor
deriving DecidableEq, Repr

/-- Rust `TxnCursor` (native/native_txn.rs): a pooled cursor handed to a caller.
The Rust struct also holds `&'txn NativeTxn`; in the embedding the
transaction is passed explicitly where needed. -/
structure TxnCursor where
  cursor : Option Cursor
deriving DecidableEq, Repr

/-- Externally visible actions of the transaction layer, in program order. -/
inductive Effect where
  | substrateCommitOk
  | substrateCommitErr (e : IsarError)
  | substrateAbort
  | notifyWatchers (cs : ChangeSet)
deriving DecidableEq, Repr

namespace NativeTxn

/-- Rust `NativeTxn::new` (native_txn.rs:24-35).  `env.txn(write)?` is the
substrate call; its outcome is the `env_txn` oracle. -/
def new (instance_id : Nat) (env_txn : Except IsarError Txn) :
    Except IsarError NativeTxn :=
  match env_txn with
  | .error e => .error e
  | .ok txn =>
      .ok { instance_id := instance_id
            txn := txn
            active := true
            buffer := none
            change_set := ChangeSet.new
            unbound_cursors := [] }

/-- Rust `NativeTxn::get_cursor` (native_txn.rs:37-53).  Pops an unbound cursor
from the pool (or allocates a new one), then binds it via the substrate
oracle `bind` (standing for `UnboundCursor::bind(&self.txn, db)`). -/
def get_cursor (txn : NativeTxn) (db : Db)
    (bind : UnboundCursor → Db → Except IsarError Cursor) :
    Except IsarError TxnCursor × NativeTxn :=
  if !txn.active then
    (.error .TransactionClosed, txn)
  else
    let popped : UnboundCursor × List UnboundCursor :=
      match txn.unbound_cursors with
      | u :: rest => (u, rest)
      | [] => (UnboundCursor.new, [])
    let txn' := { txn with unbound_cursors := popped.2 }
    match bind popped.1 db with
    | .error e => (.error e, txn')
    | .ok cursor => (.ok { cursor := some cursor }, txn')

/-- Rust `NativeTxn::guard` (native_txn.rs:60-72).  The closure `job` may mutate
the transaction through interior mutability, so it is modelled as a state
transformer. -/
def guard {T : Type} (txn : NativeTxn)
    (job : NativeTxn → Except IsarError T × NativeTxn) :
    Except IsarError T × NativeTxn :=
  if !txn.active then
    (.error .TransactionClosed, txn)
  else
    let res := job txn
    if !res.1.isOk then
      (res.1, { res.2 with active := false })
    else
      res

/-- Rust `NativeTxn::open_db` (native_txn.rs:74-79); `Db::open` is the substrate
oracle `db_open`. -/
def open_db (txn : NativeTxn) (db_open : Except IsarError Db) :
    Except IsarError Db × NativeTxn :=
  if !txn.active then (.error .TransactionClosed, txn)
  else (db_open, txn)

/-- Rust `NativeTxn::clear_db` (native_txn.rs:81-86); `db.clear` is the substrate
oracle `db_clear`. -/
def clear_db (txn : NativeTxn) (db_clear : Except IsarError Unit) :
    Except IsarError Unit × NativeTxn :=
  if !txn.active then (.error .TransactionClosed, txn)
  else (db_clear, txn)

/-- Rust `NativeTxn::drop_db` (native_txn.rs:88-93); `db.drop` is the substrate
oracle `db_drop`. -/
def drop_db (txn : NativeTxn) (db_drop : Except IsarError Unit) :
    Except IsarError Unit × NativeTxn :=
  if !txn.active then (.error .TransactionClosed, txn)
  else (db_drop, txn)

/-- Rust `NativeTxn::stat` (native_txn.rs:95-100); `db.stat` is the substrate
oracle `db_stat`. -/
def stat (txn : NativeTxn) (db_stat : Except IsarError (Nat × Nat)) :
    Except IsarError (Nat × Nat) × NativeTxn :=
  if !txn.active then (.error .TransactionClosed, txn)
  else (db_stat, txn)

/-- Rust `NativeTxn::commit` (native_txn.rs:102-109).  Consumes the transaction;
`substrate_commit` is the outcome `self.txn.commit()` would have.  The
returned trace records, in order, the substrate commit attempt and the
watcher notification. -/
def commit (txn : NativeTxn) (substrate_commit : Except IsarError Unit) :
    Except IsarError Unit × List Effect :=
  if !txn.active then
    (.error .TransactionClosed, [])
  else
    match substrate_commit with
    | .error e => (.error e, [.substrateCommitErr e])
    | .ok _ =>
        (.ok (), [.substrateCommitOk, .notifyWatchers txn.change_set])

/-- Rust `NativeTxn::abort` (native_txn.rs:111-115).  Consumes the transaction;
returns only the trace of substrate actions (the Rust function returns
`()`, so there is no error channel at all). -/
def abort (txn : NativeTxn) : List Effect :=
  if txn.active then [.substrateAbort] else []

/-- Rust `NativeTxn::take_buffer` (native_txn.rs:117-119):
`self.buffer.replace(None).unwrap_or_else(Vec::new)`. -/
def take_buffer (txn : NativeTxn) : List Nat × NativeTxn :=
  (txn.buffer.getD [], { txn with buffer := none })

/-- Rust `NativeTxn::put_buffer` (native_txn.rs:121-124): clears the handed-back
buffer, then stores it in the cell. -/
def put_buffer (txn : NativeTxn) (buffer : List Nat) : NativeTxn :=
  let buffer : List Nat := []
  { txn with buffer := some buffer }

end NativeTxn

/-- Rust `impl Drop for TxnCursor` (native_txn.rs:188-196): on drop, if the cursor
was not moved out, unbind it and push it back into the pool when the pool
holds fewer than 3 cursors; otherwise release it. -/
def txnCursorDrop (txn : NativeTxn) (c : TxnCursor) : NativeTxn :=
  match c.cursor with
  | none => txn
  | some cursor =>
      if txn.unbound_cursors.length < 3 then
        { txn with unbound_cursors := cursor.unbind :: txn.unbound_cursors }
      else
        txn

/-- One intra-transaction state transition: any of the operations of
`NativeTxn` that can change the transaction's state, over arbitrary
substrate outcomes.  `latch` covers the `active.replace(false)` performed by
`guard` on a failing job (the only write to `active` after construction). -/
inductive TxnStep : NativeTxn → NativeTxn → Prop where
  | get_cursor (txn : NativeTxn) (db : Db)
      (bind : UnboundCursor → Db → Except IsarError Cursor) :
      TxnStep txn (txn.get_cursor db bind).2
  | drop_cursor (txn : NativeTxn) (c : TxnCursor) :
      TxnStep txn (txnCursorDrop txn c)
  | take_buffer (txn : NativeTxn) :
      TxnStep txn txn.take_buffer.2
  | put_buffer (txn : NativeTxn) (b : List Nat) :
      TxnStep txn (txn.put_buffer b)
  | latch (txn : NativeTxn) :
      TxnStep txn { txn with active := false }

/-- Transaction states reachable from a successfully constructed
`NativeTxn` by any sequence of operations. -/
inductive Reachable : NativeTxn → Prop where
  | init (instance_id : Nat) (t : Txn) (txn : NativeTxn)
      (h : NativeTxn.new instance_id (.ok t) = .ok txn) : Reachable txn
  | step {a b : NativeTxn} : Reachable a → TxnStep a b → Reachable b

/-- Modelled from the spec: the sequence visitor `IsarJsonImportVisitor`
(core/de.rs, not under src/) consumes the input sequence element-wise; for
each element it constructs an inserter-backed object, finalises it and
continues, counting the objects imported.  `insert_one` covers constructing
and finalising one inserter-backed object; `n` is the running count. -/
def importVisitorRun {Elem : Type}
    (insert_one : NativeTxn → Elem → Except IsarError NativeTxn) :
    NativeTxn → List Elem → Nat → Except IsarError (NativeTxn × Nat)
  | txn, [], n => .ok (txn, n)
  | txn, e :: rest, n =>
      match insert_one txn e with
      | .error err => .error err
      | .ok txn' => importVisitorRun insert_one txn' rest (n + 1)

/-- Modelled from the spec: a streaming `deserialize_seq` call (serde, not
under src/) driving the visitor.  The input is either malformed (the
deserializer fails with its own error type `DeError`) or a sequence of
elements handed to the visitor one by one; a failure inside the visitor is
surfaced on the deserializer's error channel via `err_of`. -/
def deserializeSeq {DeError Elem : Type} (err_of : IsarError → DeError)
    (input : Except DeError (List Elem))
    (insert_one : NativeTxn → Elem → Except IsarError NativeTxn)
    (txn : NativeTxn) : Except DeError (NativeTxn × Nat) :=
  match input with
  | .error e => .error e
  | .ok elems =>
      match importVisitorRun insert_one txn elems 0 with
      | .error e => .error (err_of e)
      | .ok r => .ok r

/-- Rust `IsarInstance::import_json` (core/instance.rs:129-139): drive
`deserialize_seq` with the insert visitor, map every deserializer error to
`IsarError::JsonError`, and on success return the owned transaction and
the count of imported objects. -/
def import_json {DeError Elem : Type} (err_of : IsarError → DeError)
    (input : Except DeError (List Elem))
    (insert_one : NativeTxn → Elem → Except IsarError NativeTxn)
    (txn : NativeTxn) : Except IsarError (NativeTxn × Nat) :=
  match deserializeSeq err_of input insert_one txn with
  | .error _ => .error .JsonError
  | .ok (txn, count) => .ok (txn, count)

/-! Concrete transaction states used by the witnesses. -/

/-- An active transaction as produced by a successful `NativeTxn::new`. -/
def txnActive : NativeTxn :=
  { instance_id := 0, txn := ⟨0⟩, active := true, buffer := none,
    change_set := ChangeSet.new, unbound_cursors := [] }

/-- A latched (inactive) transaction. -/
def txnInactive : NativeTxn := { txnActive with active := false }

/-- An active transaction whose cursor pool holds one unbound cursor. -/
def txnPooled : NativeTxn := { txnActive with unbound_cursors := [⟨5⟩] }

/-! Helper lemmas shared by the claim proofs. -/

/-- The transaction state after `get_cursor`: inactive transactions are left
untouched; active ones lose the top of the cursor pool (whether or not the
substrate bind succeeds). -/
theorem get_cursor_snd_eq (txn : NativeTxn) (db : Db)
    (bind : UnboundCursor → Db → Except IsarError Cursor) :
    (txn.get_cursor db bind).2 =
      { txn with unbound_cursors :=
          if txn.active then txn.unbound_cursors.tail
          else txn.unbound_cursors } := by
  obtain ⟨iid, t, a, b, cs, uc⟩ := txn
  cases a with
  | false => simp [NativeTxn.get_cursor]
  | true =>
      cases uc with
      | nil =>
          cases hb : bind UnboundCursor.new db <;>
            simp [NativeTxn.get_cursor, hb]
      | cons u rest =>
          cases hb : bind u db <;>
            simp [NativeTxn.get_cursor, hb]

/-- The streaming visitor counts exactly the elements it consumes. -/
theorem importVisitorRun_ok_length {Elem : Type}
    (insert_one : NativeTxn → Elem → Except IsarError NativeTxn)
    (elems : List Elem) :
    ∀ (txn txn' : NativeTxn) (n m : Nat),
      importVisitorRun insert_one txn elems n = .ok (txn', m) →
      m = n + elems.length := by
  induction elems with
  | nil =>
      intro txn txn' n m h
      simp only [importVisitorRun, Except.ok.injEq, Prod.mk.injEq] at h
      simp [h.2]
  | cons e rest ih =>
      intro txn txn' n m h
      unfold importVisitorRun at h
      cases hi : insert_one txn e with
      | error err => rw [hi] at h; simp at h
      | ok txn1 =>
          rw [hi] at h
          have hm := ih txn1 txn' (n + 1) m h
          simp only [List.length_cons]
          omega

/-- Invariant: every reachable transaction retains at most three unbound
cursors in its pool. -/
theorem reachable_pool_le_three {txn : NativeTxn} (h : Reachable txn) :
    txn.unbound_cursors.length ≤ 3 := by
  induction h with
  | init iid t txn h =>
      simp only [NativeTxn.new, Except.ok.injEq] at h
      subst h
      simp
  | @step txn next _ s ih =>
      cases s with
      | get_cursor db bind =>
          rw [get_cursor_snd_eq]
          by_cases ha : txn.active = true <;>
            simp [ha, List.length_tail] <;> omega
      | drop_cursor c =>
          unfold txnCursorDrop
          cases hc : c.cursor with
          | none => exact ih
          | some cur =>
              by_cases hl : txn.unbound_cursors.length < 3
              · simp only [hl, if_pos, List.length_cons]
                omega
              · simpa [hl] using ih
      | take_buffer => simpa [NativeTxn.take_buffer] using ih
      | put_buffer b => simpa [NativeTxn.put_buffer] using ih
      | latch => simpa using ih

/-- Invariant: the scratch-buffer cell of any reachable transaction is
either empty or holds a cleared (empty) buffer. -/
theorem reachable_buffer_empty {txn : NativeTxn} (h : Reachable txn) :
    txn.buffer = none ∨ txn.buffer = some [] := by
  induction h with
  | init iid t txn h =>
      simp only [NativeTxn.new, Except.ok.injEq] at h
      subst h
      left; rfl
  | @step txn next _ s ih =>
      cases s with
      | get_cursor db bind => rw [get_cursor_snd_eq]; exact ih
      | drop_cursor c =>
          unfold txnCursorDrop
          cases hc : c.cursor with
          | none => exact ih
          | some cur =>
              by_cases hl : txn.unbound_cursors.length < 3 <;>
                simpa [hl] using ih
      | take_buffer => left; rfl
      | put_buffer b => right; rfl
      | latch => exact ih

/-! The claims. -/

/-- C1: Transaction latch law.  A guarded operation that returns an error
leaves the transaction with `active = false`, and every subsequent operation
on a latched transaction (`get_cursor`, `open_db`, `clear_db`, `drop_db`,
`stat`, `guard`, `commit`) returns `TransactionClosed` with the transaction
state unchanged (so it stays latched); in particular `commit` on a latched
transaction fails with `TransactionClosed` and its effect trace is empty,
i.e. the substrate commit is not invoked. -/
theorem transaction_latch_law :
    (∀ (T : Type) (txn : NativeTxn)
        (job : NativeTxn → Except IsarError T × NativeTxn) (e : IsarError),
      (txn.guard job).1 = .error e → ((txn.guard job).2).active = false) ∧
    (∀ txn : NativeTxn, txn.active = false →
      (∀ (db : Db) (bind : UnboundCursor → Db → Except IsarError Cursor),
        txn.get_cursor db bind = (.error .TransactionClosed, txn)) ∧
      (∀ o : Except IsarError Db,
        txn.open_db o = (.error .TransactionClosed, txn)) ∧
      (∀ o : Except IsarError Unit,
        txn.clear_db o = (.error .TransactionClosed, txn)) ∧
      (∀ o : Except IsarError Unit,
        txn.drop_db o = (.error .TransactionClosed, txn)) ∧
      (∀ o : Except IsarError (Nat × Nat),
        txn.stat o = (.error .TransactionClosed, txn)) ∧
      (∀ (T : Type) (job : NativeTxn → Except IsarError T × NativeTxn),
        txn.guard job = (.error .TransactionClosed, txn)) ∧
      (∀ sc : Except IsarError Unit,
        txn.commit sc = (.error .TransactionClosed, ([] : List Effect)))) := by
  constructor
  · intro T txn job e h
    unfold NativeTxn.guard at h ⊢
    by_cases ha : txn.active = true
    · cases hj : (job txn).1 with
      | ok v => simp [ha, hj, Except.isOk, Except.toBool] at h
      | error e2 => simp [ha, hj, Except.isOk, Except.toBool]
    · have ha' : txn.active = false := by simpa using ha
      simp [ha']
  · intro txn h
    refine ⟨?_, ?_, ?_, ?_, ?_, ?_, ?_⟩ <;> intros <;>
      simp [NativeTxn.get_cursor, NativeTxn.open_db, NativeTxn.clear_db,
        NativeTxn.drop_db, NativeTxn.stat, NativeTxn.guard,
        NativeTxn.commit, h]

/-- Witness for C1: a failing guarded job latches a fresh transaction, and
commit on a latched transaction returns `TransactionClosed` without any
substrate effect. -/
theorem transaction_latch_law_witness :
    ((txnActive.guard
        (fun t => ((.error .DbFull : Except IsarError Unit), t))).2).active
      = false ∧
    txnInactive.commit (.ok ()) =
      (.error .TransactionClosed, ([] : List Effect)) :=
  ⟨transaction_latch_law.1 Unit txnActive
      (fun t => ((.error .DbFull : Except IsarError Unit), t)) .DbFull rfl,
   (transaction_latch_law.2 txnInactive rfl).2.2.2.2.2.2 (.ok ())⟩

/-- C2: Watcher causality.  A watcher notification appears in `commit`'s
effect trace only when the substrate commit succeeded, and then strictly
after the successful substrate commit; when the substrate commit fails,
`commit` returns that error and the trace holds no notification; `abort`
never notifies watchers. -/
theorem watcher_causality :
    (∀ (txn : NativeTxn) (sc : Except IsarError Unit) (cs : ChangeSet),
      Effect.notifyWatchers cs ∈ (txn.commit sc).2 →
      sc = .ok () ∧ (txn.commit sc).1 = .ok () ∧
      (txn.commit sc).2 =
        [Effect.substrateCommitOk, Effect.notifyWatchers txn.change_set]) ∧
    (∀ (txn : NativeTxn) (e : IsarError), txn.active = true →
      txn.commit (.error e) = (.error e, [Effect.substrateCommitErr e])) ∧
    (∀ (txn : NativeTxn) (cs : ChangeSet),
      Effect.notifyWatchers cs ∉ txn.abort) := by
  refine ⟨?_, ?_, ?_⟩
  · intro txn sc cs hmem
    unfold NativeTxn.commit at hmem ⊢
    by_cases ha : txn.active = true
    · cases sc with
      | error e => simp [ha] at hmem
      | ok u => cases u; simp [ha]
    · have ha' : txn.active = false := by simpa using ha
      simp [ha'] at hmem
  · intro txn e ha
    simp [NativeTxn.commit, ha]
  · intro txn cs
    unfold NativeTxn.abort
    by_cases ha : txn.active = true <;> simp [ha]

/-- Witness for C2: on a fresh transaction a successful substrate commit
notifies after the commit effect, and a failing substrate commit is returned
verbatim with no notification. -/
theorem watcher_causality_witness :
    ((.ok () : Except IsarError Unit) = .ok () ∧
      (txnActive.commit (.ok ())).1 = .ok () ∧
      (txnActive.commit (.ok ())).2 =
        [Effect.substrateCommitOk,
          Effect.notifyWatchers txnActive.change_set]) ∧
    txnActive.commit (.error .DbFull) =
      (.error .DbFull, [Effect.substrateCommitErr .DbFull]) :=
  ⟨watcher_causality.1 txnActive (.ok ()) txnActive.change_set (by decide),
   watcher_causality.2.1 txnActive .DbFull rfl⟩

/-- C3: Cursor-pool bound.  Every reachable transaction retains at most 3
unbound cursors, and dropping a `TxnCursor` that still holds its cursor
pushes the unbound cursor back exactly when the pool holds fewer than 3
cursors, releasing it (pool unchanged) otherwise. -/
theorem cursor_pool_bound :
    (∀ txn : NativeTxn, Reachable txn → txn.unbound_cursors.length ≤ 3) ∧
    (∀ (txn : NativeTxn) (c : TxnCursor) (cur : Cursor),
      c.cursor = some cur →
      (txn.unbound_cursors.length < 3 →
        txnCursorDrop txn c =
          { txn with
              unbound_cursors := cur.unbind :: txn.unbound_cursors }) ∧
      (3 ≤ txn.unbound_cursors.length → txnCursorDrop txn c = txn)) := by
  refine ⟨fun txn h => reachable_pool_le_three h, ?_⟩
  intro txn c cur hc
  constructor
  · intro hl
    simp [txnCursorDrop, hc, hl]
  · intro hl
    have hnl : ¬ txn.unbound_cursors.length < 3 := by omega
    simp [txnCursorDrop, hc, hnl]

/-- Witness for C3: a freshly created transaction satisfies the pool bound,
and dropping a live cursor over an empty pool pushes it back. -/
theorem cursor_pool_bound_witness :
    txnActive.unbound_cursors.length ≤ 3 ∧
    txnCursorDrop txnActive { cursor := some ⟨7, ⟨1⟩⟩ } =
      { txnActive with unbound_cursors := [⟨7⟩] } :=
  ⟨cursor_pool_bound.1 txnActive (Reachable.init 0 ⟨0⟩ txnActive rfl),
   (cursor_pool_bound.2 txnActive { cursor := some ⟨7, ⟨1⟩⟩ } ⟨7, ⟨1⟩⟩
      rfl).1 (by decide)⟩

/-- C4: Read-path operations leave the transaction usable on error: a
substrate failure inside `get_cursor` (cursor binding) or `stat` is passed
to the caller with the active flag still true; moreover none of
`get_cursor`, `open_db`, `clear_db`, `drop_db`, `stat` ever changes the
active flag — only `guard` latches. -/
theorem read_path_no_latch :
    (∀ (txn : NativeTxn) (db : Db)
        (bind : UnboundCursor → Db → Except IsarError Cursor) (e : IsarError),
      txn.active = true →
      bind (txn.unbound_cursors.headD UnboundCursor.new) db = .error e →
      (txn.get_cursor db bind).1 = .error e ∧
      ((txn.get_cursor db bind).2).active = true) ∧
    (∀ (txn : NativeTxn) (s : Except IsarError (Nat × Nat)),
      txn.active = true → txn.stat s = (s, txn)) ∧
    (∀ (txn : NativeTxn) (db : Db)
        (bind : UnboundCursor → Db → Except IsarError Cursor),
      ((txn.get_cursor db bind).2).active = txn.active) ∧
    (∀ (txn : NativeTxn) (o : Except IsarError Db), (txn.open_db o).2 = txn) ∧
    (∀ (txn : NativeTxn) (o : Except IsarError Unit),
      (txn.clear_db o).2 = txn) ∧
    (∀ (txn : NativeTxn) (o : Except IsarError Unit),
      (txn.drop_db o).2 = txn) ∧
    (∀ (txn : NativeTxn) (s : Except IsarError (Nat × Nat)),
      (txn.stat s).2 = txn) := by
  refine ⟨?_, ?_, ?_, ?_, ?_, ?_, ?_⟩
  · intro txn db bind e ha hb
    obtain ⟨iid, t, a, bf, cs, uc⟩ := txn
    simp only at ha
    subst ha
    cases uc with
    | nil =>
        simp only [List.headD_nil] at hb
        simp [NativeTxn.get_cursor, hb]
    | cons u rest =>
        simp only [List.headD_cons] at hb
        simp [NativeTxn.get_cursor, hb]
  · intro txn s ha
    simp [NativeTxn.stat, ha]
  · intro txn db bind
    rw [get_cursor_snd_eq]
  · intro txn o
    unfold NativeTxn.open_db
    by_cases ha : txn.active = true <;> simp [ha]
  · intro txn o
    unfold NativeTxn.clear_db
    by_cases ha : txn.active = true <;> simp [ha]
  · intro txn o
    unfold NativeTxn.drop_db
    by_cases ha : txn.active = true <;> simp [ha]
  · intro txn s
    unfold NativeTxn.stat
    by_cases ha : txn.active = true <;> simp [ha]

/-- Witness for C4: a failing cursor bind and a failing stat on a fresh
transaction are reported without latching it. -/
theorem read_path_no_latch_witness :
    ((txnActive.get_cursor ⟨1⟩ (fun _ _ => .error .DbFull)).1 =
        .error .DbFull ∧
      ((txnActive.get_cursor ⟨1⟩ (fun _ _ => .error .DbFull)).2).active =
        true) ∧
    txnActive.stat (.error .DbFull) = (.error .DbFull, txnActive) :=
  ⟨read_path_no_latch.1 txnActive ⟨1⟩ (fun _ _ => .error .DbFull) .DbFull
      rfl rfl,
   read_path_no_latch.2.1 txnActive (.error .DbFull) rfl⟩

/-- C5: Cursor acquisition.  On an active transaction with a non-empty pool,
`get_cursor` pops the top unbound cursor and binds it to the requested
sub-database; with an empty pool it allocates a new unbound cursor and binds
that; bind failures are passed through.  On an inactive transaction it
returns `TransactionClosed` with the state unchanged, and its result does
not depend on the substrate bind at all. -/
theorem get_cursor_acquisition :
    (∀ (txn : NativeTxn) (db : Db)
        (bind : UnboundCursor → Db → Except IsarError Cursor)
        (u : UnboundCursor) (rest : List UnboundCursor),
      txn.active = true → txn.unbound_cursors = u :: rest →
      (txn.get_cursor db bind).2 = { txn with unbound_cursors := rest } ∧
      (∀ c, bind u db = .ok c →
        (txn.get_cursor db bind).1 = .ok { cursor := some c }) ∧
      (∀ e, bind u db = .error e →
        (txn.get_cursor db bind).1 = .error e)) ∧
    (∀ (txn : NativeTxn) (db : Db)
        (bind : UnboundCursor → Db → Except IsarError Cursor),
      txn.active = true → txn.unbound_cursors = [] →
      (txn.get_cursor db bind).2 = txn ∧
      (∀ c, bind UnboundCursor.new db = .ok c →
        (txn.get_cursor db bind).1 = .ok { cursor := some c }) ∧
      (∀ e, bind UnboundCursor.new db = .error e →
        (txn.get_cursor db bind).1 = .error e)) ∧
    (∀ (txn : NativeTxn) (db : Db)
        (bind1 bind2 : UnboundCursor → Db → Except IsarError Cursor),
      txn.active = false →
      txn.get_cursor db bind1 = (.error .TransactionClosed, txn) ∧
      txn.get_cursor db bind1 = txn.get_cursor db bind2) := by
  refine ⟨?_, ?_, ?_⟩
  · intro txn db bind u rest ha hp
    obtain ⟨iid, t, a, bf, cs, uc⟩ := txn
    simp only at ha hp
    subst ha
    subst hp
    refine ⟨?_, ?_, ?_⟩
    · cases hb : bind u db <;> simp [NativeTxn.get_cursor, hb]
    · intro c hb
      simp [NativeTxn.get_cursor, hb]
    · intro e hb
      simp [NativeTxn.get_cursor, hb]
  · intro txn db bind ha hp
    obtain ⟨iid, t, a, bf, cs, uc⟩ := txn
    simp only at ha hp
    subst ha
    subst hp
    refine ⟨?_, ?_, ?_⟩
    · cases hb : bind UnboundCursor.new db <;>
        simp [NativeTxn.get_cursor, hb]
    · intro c hb
      simp [NativeTxn.get_cursor, hb]
    · intro e hb
      simp [NativeTxn.get_cursor, hb]
  · intro txn db bind1 bind2 ha
    constructor <;> simp [NativeTxn.get_cursor, ha]

/-- Witness for C5: popping the single pooled cursor of a transaction, and
the inactive early return. -/
theorem get_cursor_acquisition_witness :
    (txnPooled.get_cursor ⟨1⟩ (fun u db => .ok ⟨u.tok, db⟩)).2 =
      { txnPooled with unbound_cursors := [] } ∧
    txnInactive.get_cursor ⟨1⟩ (fun u db => .ok ⟨u.tok, db⟩) =
      (.error .TransactionClosed, txnInactive) :=
  ⟨(get_cursor_acquisition.1 txnPooled ⟨1⟩ (fun u db => .ok ⟨u.tok, db⟩)
      ⟨5⟩ [] rfl rfl).1,
   (get_cursor_acquisition.2.2 txnInactive ⟨1⟩ (fun u db => .ok ⟨u.tok, db⟩)
      (fun u db => .ok ⟨u.tok, db⟩) rfl).1⟩

/-- C6: Scratch buffer discipline.  `put_buffer` clears the handed-back
buffer before storing it, so the stored buffer is always empty; on any
reachable transaction `take_buffer` returns an empty buffer (the cleared
stored one, or a newly allocated one — the two are indistinguishable as
values) and leaves the cell empty, so at most one buffer is in flight from
the cell at a time. -/
theorem scratch_buffer_discipline :
    (∀ (txn : NativeTxn) (b : List Nat),
      (txn.put_buffer b).buffer = some []) ∧
    (∀ txn : NativeTxn, Reachable txn →
      txn.take_buffer.1 = [] ∧ txn.take_buffer.2.buffer = none) := by
  refine ⟨fun txn b => rfl, ?_⟩
  intro txn h
  rcases reachable_buffer_empty h with hb | hb <;>
    simp [NativeTxn.take_buffer, hb]

/-- Witness for C6: taking the buffer of a fresh transaction yields an empty
buffer and an empty cell. -/
theorem scratch_buffer_discipline_witness :
    txnActive.take_buffer.1 = [] ∧ txnActive.take_buffer.2.buffer = none :=
  scratch_buffer_discipline.2 txnActive (Reachable.init 0 ⟨0⟩ txnActive rfl)

/-- C7: abort never fails.  The model's `abort` consumes the transaction and
returns only an effect trace — like the Rust signature `fn abort(self)`,
it has no error channel — and for every transaction state that trace
contains at most the substrate abort and never a watcher notification, so
the pending change-set is discarded silently. -/
theorem abort_never_fails (txn : NativeTxn) :
    (∀ e ∈ txn.abort, e = Effect.substrateAbort) ∧
    (∀ cs : ChangeSet, Effect.notifyWatchers cs ∉ txn.abort) := by
  unfold NativeTxn.abort
  by_cases ha : txn.active = true <;> simp [ha]

/-- Witness for C7: aborting a fresh transaction notifies no watcher. -/
theorem abort_never_fails_witness :
    Effect.notifyWatchers ChangeSet.new ∉ txnActive.abort :=
  (abort_never_fails txnActive).2 ChangeSet.new

/-- C8: JSON import.  `import_json` passes a successful `deserialize_seq`
result (the owned transaction and the import count) through unchanged; on a
fully successful import the count equals the number of sequence elements
consumed element-wise by the visitor; and every failing deserialization is
returned as the `JsonError` kind. -/
theorem import_json_spec :
    (∀ (DeError Elem : Type) (err_of : IsarError → DeError)
        (input : Except DeError (List Elem))
        (insert_one : NativeTxn → Elem → Except IsarError NativeTxn)
        (txn : NativeTxn) (r : NativeTxn × Nat),
      deserializeSeq err_of input insert_one txn = .ok r →
      (import_json err_of input insert_one txn) = .ok r) ∧
    (∀ (DeError Elem : Type) (err_of : IsarError → DeError)
        (elems : List Elem)
        (insert_one : NativeTxn → Elem → Except IsarError NativeTxn)
        (txn txn' : NativeTxn) (n : Nat),
      (import_json err_of (.ok elems) insert_one txn) = .ok (txn', n) →
      n = elems.length) ∧
    (∀ (DeError Elem : Type) (err_of : IsarError → DeError)
        (input : Except DeError (List Elem))
        (insert_one : NativeTxn → Elem → Except IsarError NativeTxn)
        (txn : NativeTxn) (e : DeError),
      deserializeSeq err_of input insert_one txn = .error e →
      (import_json err_of input insert_one txn) = .error .JsonError) := by
  refine ⟨?_, ?_, ?_⟩
  · intro DeError Elem err_of input insert_one txn r h
    obtain ⟨t, c⟩ := r
    unfold import_json
    rw [h]
  · intro DeError Elem err_of elems insert_one txn txn' n h
    unfold import_json deserializeSeq at h
    cases hv : importVisitorRun insert_one txn elems 0 with
    | error e => simp [hv] at h
    | ok r =>
        obtain ⟨t, c⟩ := r
        simp [hv] at h
        have hl := importVisitorRun_ok_length insert_one elems txn t 0 c hv
        obtain ⟨h1, h2⟩ := h
        omega
  · intro DeError Elem err_of input insert_one txn e h
    unfold import_json
    rw [h]

/-- Witness for C8: importing a two-element sequence counts two objects, and
a malformed input surfaces as `JsonError`. -/
theorem import_json_spec_witness :
    (2 : Nat) = ([0, 1] : List Nat).length ∧
    (import_json (fun e => e)
      (.error .DbFull : Except IsarError (List Nat))
      (fun t _ => .ok t) txnActive) = .error .JsonError :=
  ⟨import_json_spec.2.1 IsarError Nat (fun e => e) [0, 1] (fun t _ => .ok t)
      txnActive txnActive 2 rfl,
   (import_json_spec.2.2 IsarError Nat (fun e => e) (.error .DbFull)
      (fun t _ => .ok t) txnActive .DbFull rfl)⟩

/-- C9: abort on an already-inactive transaction performs no substrate
operation at all (empty effect trace), while abort on an active transaction
aborts the substrate transaction exactly once. -/
theorem abort_substrate_once (txn : NativeTxn) :
    (txn.active = false → txn.abort = []) ∧
    (txn.active = true →
      txn.abort.count Effect.substrateAbort = 1) := by
  unfold NativeTxn.abort
  constructor
  · intro h; simp [h]
  · intro h; simp [h]

/-- Witness for C9: a latched transaction aborts silently; a fresh one
issues exactly one substrate abort. -/
theorem abort_substrate_once_witness :
    txnInactive.abort = [] ∧
    txnActive.abort.count Effect.substrateAbort = 1 :=
  ⟨(abort_substrate_once txnInactive).1 rfl,
   (abort_substrate_once txnActive).2 rfl⟩

/-- C10: a second `take_buffer` while the first taken buffer is still
outstanding does not fail (the model is a total function, like the Rust
code, which has no error path) and returns a newly allocated empty buffer,
leaving the cell empty — it never hands out the outstanding buffer, which
was moved out of the cell by the first call. -/
theorem take_buffer_twice (txn : NativeTxn) :
    txn.take_buffer.2.take_buffer.1 = [] ∧
    txn.take_buffer.2.take_buffer.2.buffer = none := by
  simp [NativeTxn.take_buffer]

/-- Witness for C10: the double take on a fresh transaction. -/
theorem take_buffer_twice_witness :
    txnActive.take_buffer.2.take_buffer.1 = [] ∧
    txnActive.take_buffer.2.take_buffer.2.buffer = none :=
  take_buffer_twice txnActive

end Isar
